import Mathlib

/-!
Verification of the silverberg Cassandra lock recipe (silverberg/lock.py).

Two levels of shallow embedding are used:

1. A storage-state model: the lock table is a list of rows, each row a
   (lockId, claimId) pair.  `claimId` is a time-ordered UUID (timeuuid); we
   model it as a `Nat` so that creation order is the numeric order.  The
   SELECT with `ORDER BY claimId` is modelled as filtering the table by
   lockId and sorting by claimId; INSERT and DELETE are modelled as the
   corresponding state transformations.  Storage operations at this level
   succeed (this level captures what the queries do to the data).

2. An outcome-level model of the Deferred chains: each client call or whole
   attempt is summarised by its outcome (`Except Err _`), and the callback
   and errback wiring of `acquire`, `ensure_schema` and `with_lock` is
   translated into functions over those outcomes.  This level captures the
   retry loop, error classification and error propagation.
-/

namespace Silverberg

/-- A row of the lock table: a persisted claim record keyed by
(lockId, claimId).  The timeuuid claimId is modelled as a `Nat`. -/
structure Row where
  lockId : String
  claimId : Nat
deriving DecidableEq, Repr

/-- The lock table contents. -/
abbrev Storage := List Row

/-- Failure classes surfaced by the client / the lock code.
`invalidRequest` is Cassandra's InvalidRequestException (its `why` message
is carried but never inspected by the lock code); `busyLock` is
BusyLockError(lock_table, lock_id); `storage` is any other client failure. -/
inductive Err
  | invalidRequest (why : String)
  | busyLock (lock_table lock_id : String)
  | storage (msg : String)
deriving DecidableEq, Repr

/-- Model of `BasicLock.__init__`: the instance state.  `claim_id` is the timeuuid
generated by `uuid.uuid1()` at construction. -/
structure BasicLock where
  lock_table : String
  lock_id : String
  claim_id : Nat
  ttl : Nat
deriving DecidableEq, Repr

/-- Construction: the claim identifier is generated exactly once here, from
the fresh uuid supplied by the environment, and stored in the instance. -/
def BasicLock.init (lock_table lock_id : String) (fresh_uuid : Nat) (ttl : Nat) :
    BasicLock :=
  { lock_table := lock_table, lock_id := lock_id, claim_id := fresh_uuid, ttl := ttl }

/-- The ORDER BY relation of `_read_lock`: ascending claimId. -/
def claimLe (a b : Row) : Prop := a.claimId ≤ b.claimId

instance : DecidableRel claimLe := fun a b => Nat.decLe a.claimId b.claimId

instance : IsTotal Row claimLe := ⟨fun a b => Nat.le_total a.claimId b.claimId⟩

instance : IsTrans Row claimLe := ⟨fun _ _ _ h h2 => Nat.le_trans h h2⟩

/-- Model of `_write_lock`: INSERT INTO cf ("lockId","claimId") VALUES (...) USING TTL.
Cassandra INSERT is an upsert on the primary key (lockId, claimId). -/
def BasicLock.write_lock (l : BasicLock) (s : Storage) : Storage :=
  if (⟨l.lock_id, l.claim_id⟩ : Row) ∈ s then s else s ++ [⟨l.lock_id, l.claim_id⟩]

/-- Model of `_read_lock`: SELECT * FROM cf WHERE "lockId"=:lockId ORDER BY "claimId". -/
def BasicLock.read_lock (l : BasicLock) (s : Storage) : List Row :=
  List.insertionSort claimLe (s.filter (fun r => r.lockId == l.lock_id))

/-- Model of `release`: DELETE FROM cf WHERE "lockId"=:lockId AND "claimId"=:claimId.
Deletes the engine's own claim record; deleting an absent row is a no-op. -/
def BasicLock.releaseState (l : BasicLock) (s : Storage) : Storage :=
  s.filter (fun r => !(r.lockId == l.lock_id && r.claimId == l.claim_id))

/-- Outcome of one verify step. -/
inductive AttemptRes
  | acquired
  | busyLock (lock_table lock_id : String)
deriving DecidableEq, Repr

/-- Model of `_verify_lock(response)`: reads `response[0]` unconditionally, so an
empty response is a Python IndexError, modelled as `none`.  If the first
row carries the engine's own claimId the attempt succeeds; otherwise the
engine deletes its own record and fails with BusyLockError(lock_table,
lock_id). -/
def BasicLock.verify_lock (l : BasicLock) (response : List Row) (s : Storage) :
    Option (AttemptRes × Storage) :=
  match response with
  | [] => none
  | r :: _ =>
    if r.claimId = l.claim_id then
      some (AttemptRes.acquired, s)
    else
      some (AttemptRes.busyLock l.lock_table l.lock_id, l.releaseState s)

/-- Whether the engine, evaluating its verify step against the instantaneous
storage state `s`, observes success. -/
def observes_success (l : BasicLock) (s : Storage) : Bool :=
  match l.verify_lock (l.read_lock s) s with
  | some (AttemptRes.acquired, _) => true
  | _ => false

theorem observes_success_iff (l : BasicLock) (s : Storage) :
    observes_success l s = true ↔
      ∃ r rest, l.read_lock s = r :: rest ∧ r.claimId = l.claim_id := by
  unfold observes_success BasicLock.verify_lock
  cases h : l.read_lock s with
  | nil => simp
  | cons r rest =>
    by_cases hc : r.claimId = l.claim_id
    · simp [hc]
    · simp only [hc, if_false]
      constructor
      · intro hfalse; cases hfalse
      · rintro ⟨a, b, hab, hca⟩
        cases hab
        exact absurd hca hc

theorem success_claim_minimal (l : BasicLock) (s : Storage)
    (hs : observes_success l s = true) :
    ∀ r ∈ s, r.lockId = l.lock_id → l.claim_id ≤ r.claimId := by
  intro r hr hlid
  obtain ⟨hd, rest, hread, hclaim⟩ := (observes_success_iff l s).1 hs
  have hsorted : List.Sorted claimLe (l.read_lock s) :=
    List.sorted_insertionSort claimLe _
  have hmem : r ∈ l.read_lock s := by
    unfold BasicLock.read_lock
    rw [List.mem_insertionSort, List.mem_filter]
    exact ⟨hr, by simp [hlid]⟩
  rw [hread] at hmem hsorted
  rcases List.mem_cons.1 hmem with h | h
  · subst h; rw [hclaim]
  · have := List.rel_of_sorted_cons hsorted r h
    unfold claimLe at this
    rw [hclaim] at this
    exact this

/-- C1: for two concurrent AttemptAcquire calls on the same lock name with
distinct claim identifiers, at any instant when both claim records are
simultaneously live in storage at most one engine observes success of its
verify step, and an engine that observes success holds the earlier claim
identifier of the two. -/
theorem C1_mutual_exclusion (A B : BasicLock) (s : Storage)
    (hl : A.lock_id = B.lock_id)
    (hc : A.claim_id ≠ B.claim_id)
    (hA : (⟨A.lock_id, A.claim_id⟩ : Row) ∈ s)
    (hB : (⟨B.lock_id, B.claim_id⟩ : Row) ∈ s) :
    ¬(observes_success A s = true ∧ observes_success B s = true) ∧
    (observes_success A s = true → A.claim_id < B.claim_id) ∧
    (observes_success B s = true → B.claim_id < A.claim_id) := by
  have hAmin : observes_success A s = true → A.claim_id ≤ B.claim_id := by
    intro hsucc
    exact success_claim_minimal A s hsucc ⟨B.lock_id, B.claim_id⟩ hB hl.symm
  have hBmin : observes_success B s = true → B.claim_id ≤ A.claim_id := by
    intro hsucc
    exact success_claim_minimal B s hsucc ⟨A.lock_id, A.claim_id⟩ hA hl
  refine ⟨?_, ?_, ?_⟩
  · rintro ⟨ha, hb⟩
    exact hc (Nat.le_antisymm (hAmin ha) (hBmin hb))
  · intro ha
    exact Nat.lt_of_le_of_ne (hAmin ha) hc
  · intro hb
    exact Nat.lt_of_le_of_ne (hBmin hb) (fun h => hc h.symm)

/-- Witness for C1 at the spec scenario: lock name jobs-queue, engine A with
claim 1, engine B with claim 2, both records live. -/
theorem C1_mutual_exclusion_witness :
    ¬(observes_success (BasicLock.init "locks" "jobs-queue" 1 5)
        [⟨"jobs-queue", 1⟩, ⟨"jobs-queue", 2⟩] = true ∧
      observes_success (BasicLock.init "locks" "jobs-queue" 2 5)
        [⟨"jobs-queue", 1⟩, ⟨"jobs-queue", 2⟩] = true) ∧
    (observes_success (BasicLock.init "locks" "jobs-queue" 1 5)
        [⟨"jobs-queue", 1⟩, ⟨"jobs-queue", 2⟩] = true → 1 < 2) ∧
    (observes_success (BasicLock.init "locks" "jobs-queue" 2 5)
        [⟨"jobs-queue", 1⟩, ⟨"jobs-queue", 2⟩] = true → 2 < 1) :=
  C1_mutual_exclusion (BasicLock.init "locks" "jobs-queue" 1 5)
    (BasicLock.init "locks" "jobs-queue" 2 5)
    [⟨"jobs-queue", 1⟩, ⟨"jobs-queue", 2⟩]
    rfl (by decide) (by simp [BasicLock.init]) (by simp [BasicLock.init])

/-- Model of `ensure_schema`: executes CREATE TABLE and attaches an errback that does
`failure.trap(InvalidRequestException)` — an errback that traps a class
converts that failure into a success (the errback returns None) and
re-raises any other failure.  `executeResult` is the outcome of the CREATE
TABLE client call. -/
def ensure_schema (executeResult : Except Err (List Row)) : Except Err Unit :=
  match executeResult with
  | Except.ok _ => Except.ok ()
  | Except.error (Err.invalidRequest _) => Except.ok ()
  | Except.error e => Except.error e

/-- Model of `drop_schema`: executes DROP TABLE with no errback; the client outcome
passes through unchanged. -/
def drop_schema (executeResult : Except Err (List Row)) : Except Err (List Row) :=
  executeResult

/-- The retry loop of `acquire(max_retry, timeout)`.  `outcomes n` is the
outcome of the n-th `_acquire_lock()` write-read-verify cycle (`.ok true`
when verify succeeded, `.error e` when the chain failed).  `_lock_not_acquired`
traps BusyLockError, increments `retries`, and schedules another attempt when
`retries <= max_retry`; any other failure is re-raised by `trap` at once.
`remaining` is the number of retries still allowed, i.e. `max_retry - retries`.
Returns the final outcome and the number of attempts performed. -/
def acquireGo (outcomes : Nat → Except Err Bool) :
    Nat → Nat → Except Err Bool × Nat
  | n, remaining =>
    match outcomes n, remaining with
    | Except.ok v, _ => (Except.ok v, 1)
    | Except.error (Err.busyLock t i), 0 => (Except.error (Err.busyLock t i), 1)
    | Except.error (Err.busyLock _ _), remaining + 1 =>
      let r := acquireGo outcomes (n + 1) remaining
      (r.1, r.2 + 1)
    | Except.error (Err.invalidRequest w), _ =>
      (Except.error (Err.invalidRequest w), 1)
    | Except.error (Err.storage m), _ => (Except.error (Err.storage m), 1)

/-- Model of `acquire(max_retry, timeout)`: starts with `retries = 0`, so the number
of retries still allowed is `max_retry`. -/
def acquire (outcomes : Nat → Except Err Bool) (max_retry : Nat) :
    Except Err Bool × Nat :=
  acquireGo outcomes 0 max_retry

/-- Classification used by `failure.trap(BusyLockError)`. -/
def isBusyLock : Err → Bool
  | Err.busyLock _ _ => true
  | _ => false

/-- A storage operation issued by the lock, with the claimId it binds when
it binds one. -/
inductive Event
  | writeEv (lockId : String) (claimId : Nat)
  | readEv (lockId : String)
  | verifyEv (ownClaim firstClaim : Nat)
  | deleteEv (lockId : String) (claimId : Nat)
deriving DecidableEq, Repr

/-- The claim identifier an event binds, when it binds one. -/
def Event.claimUsed : Event → Option Nat
  | Event.writeEv _ c => some c
  | Event.readEv _ => none
  | Event.verifyEv c _ => some c
  | Event.deleteEv _ c => some c

/-- One `_acquire_lock()` cycle as an event trace: `_write_lock` binds the
instance claim_id, `_read_lock` binds the lock name, `_verify_lock` compares
the instance claim_id with `response[0]`, and on mismatch `release` binds
the instance claim_id again.  `resp` is what the read returned. -/
def attemptTrace (l : BasicLock) (resp : List Row) :
    List Event × Except Err Bool :=
  match resp with
  | [] =>
    ([Event.writeEv l.lock_id l.claim_id, Event.readEv l.lock_id],
     Except.error (Err.storage "IndexError"))
  | r :: _ =>
    if r.claimId = l.claim_id then
      ([Event.writeEv l.lock_id l.claim_id, Event.readEv l.lock_id,
        Event.verifyEv l.claim_id r.claimId],
       Except.ok true)
    else
      ([Event.writeEv l.lock_id l.claim_id, Event.readEv l.lock_id,
        Event.verifyEv l.claim_id r.claimId,
        Event.deleteEv l.lock_id l.claim_id],
       Except.error (Err.busyLock l.lock_table l.lock_id))

/-- The retry loop of `acquire`, collecting the events of every attempt.
`resps n` is the row set the n-th read returned (controlled by the
environment / concurrent engines); `remaining` is `max_retry - retries`. -/
def acquireTrace (l : BasicLock) (resps : Nat → List Row) :
    Nat → Nat → List Event × Except Err Bool
  | n, remaining =>
    match attemptTrace l (resps n), remaining with
    | (evs, Except.ok v), _ => (evs, Except.ok v)
    | (evs, Except.error (Err.busyLock _ _)), 0 =>
      (evs, Except.error (Err.busyLock l.lock_table l.lock_id))
    | (evs, Except.error (Err.busyLock _ _)), remaining + 1 =>
      let r := acquireTrace l resps (n + 1) remaining
      (evs ++ r.1, r.2)
    | (evs, Except.error e), _ => (evs, Except.error e)

/-- Model of `with_lock`: `release_lock(result)` runs `lock.release()` and attaches
`addCallback(lambda x: result)`; the callback only runs when the release
deferred succeeds, so a failed release propagates its own failure instead
of `result`. -/
def release_lock (releaseRes : Except Err Unit) (result : Except Err α) :
    Except Err α :=
  match releaseRes with
  | Except.ok _ => result
  | Except.error e => Except.error e

/-- Model of `with_lock`: acquire, then on success run the unit of work and attach
`release_lock` with addBoth (so it runs on both outcomes of the work).
`acquireRes`, `workRes` and `releaseRes` are the outcomes of the three
collaborator calls; the returned Nat counts release invocations. -/
def with_lock_run (acquireRes : Except Err Bool) (workRes : Except Err α)
    (releaseRes : Except Err Unit) : Except Err α × Nat :=
  match acquireRes with
  | Except.error e => (Except.error e, 0)
  | Except.ok _ => (release_lock releaseRes workRes, 1)

theorem releaseState_not_mem (l : BasicLock) (s : Storage) :
    (⟨l.lock_id, l.claim_id⟩ : Row) ∉ l.releaseState s := by
  unfold BasicLock.releaseState
  simp [List.mem_filter]

/-- C8: in the verify step, a first row carrying a foreign claim identifier
makes the engine delete its own just-written record (it is absent from the
resulting state) and fail with BusyLockError carrying the lock table and
lock name; a first row carrying its own claim identifier makes the attempt
succeed. -/
theorem C8_contended_verify (l : BasicLock) (r : Row) (rest : List Row)
    (s : Storage) :
    (r.claimId ≠ l.claim_id →
      l.verify_lock (r :: rest) s =
        some (AttemptRes.busyLock l.lock_table l.lock_id, l.releaseState s) ∧
      (⟨l.lock_id, l.claim_id⟩ : Row) ∉ l.releaseState s) ∧
    (r.claimId = l.claim_id →
      l.verify_lock (r :: rest) s = some (AttemptRes.acquired, s)) := by
  constructor
  · intro hne
    exact ⟨by simp [BasicLock.verify_lock, hne], releaseState_not_mem l s⟩
  · intro heq
    simp [BasicLock.verify_lock, heq]

/-- Witness for C8: engine with claim 2 sees head row with claim 1 on lock
jobs-queue; and an engine with claim 1 sees its own head row. -/
theorem C8_contended_verify_witness :
    ((1 : Nat) ≠ 2 →
      (BasicLock.init "locks" "jobs-queue" 2 300).verify_lock
          [⟨"jobs-queue", 1⟩, ⟨"jobs-queue", 2⟩] [⟨"jobs-queue", 1⟩, ⟨"jobs-queue", 2⟩] =
        some (AttemptRes.busyLock "locks" "jobs-queue",
          (BasicLock.init "locks" "jobs-queue" 2 300).releaseState
            [⟨"jobs-queue", 1⟩, ⟨"jobs-queue", 2⟩]) ∧
      (⟨"jobs-queue", 2⟩ : Row) ∉
        (BasicLock.init "locks" "jobs-queue" 2 300).releaseState
          [⟨"jobs-queue", 1⟩, ⟨"jobs-queue", 2⟩]) ∧
    ((1 : Nat) = 2 →
      (BasicLock.init "locks" "jobs-queue" 2 300).verify_lock
          [⟨"jobs-queue", 1⟩, ⟨"jobs-queue", 2⟩] [⟨"jobs-queue", 1⟩, ⟨"jobs-queue", 2⟩] =
        some (AttemptRes.acquired, [⟨"jobs-queue", 1⟩, ⟨"jobs-queue", 2⟩])) :=
  C8_contended_verify (BasicLock.init "locks" "jobs-queue" 2 300)
    ⟨"jobs-queue", 1⟩ [⟨"jobs-queue", 2⟩] [⟨"jobs-queue", 1⟩, ⟨"jobs-queue", 2⟩]

/-- C9: release is idempotent and unconditional — releasing twice equals
releasing once, the engine's own record is never present afterwards, and
releasing when the record is absent is a no-op (absence is not an error:
the delete is total in the state model). -/
theorem C9_release_idempotent (l : BasicLock) (s : Storage) :
    l.releaseState (l.releaseState s) = l.releaseState s ∧
    (⟨l.lock_id, l.claim_id⟩ : Row) ∉ l.releaseState s ∧
    ((⟨l.lock_id, l.claim_id⟩ : Row) ∉ s → l.releaseState s = s) := by
  refine ⟨?_, releaseState_not_mem l s, ?_⟩
  · unfold BasicLock.releaseState
    rw [List.filter_filter]
    simp
  · intro habs
    unfold BasicLock.releaseState
    rw [List.filter_eq_self]
    intro a ha
    have hne : a ≠ (⟨l.lock_id, l.claim_id⟩ : Row) := fun h => habs (h ▸ ha)
    simp only [Bool.not_eq_eq_eq_not, Bool.not_true, Bool.and_eq_false_iff]
    by_cases h1 : a.lockId = l.lock_id
    · right
      rw [beq_eq_false_iff_ne]
      intro h2
      exact hne (by cases a; cases h1; cases h2; rfl)
    · left
      rw [beq_eq_false_iff_ne]
      exact h1

/-- Witness for C9: a state holding only a foreign record. -/
theorem C9_release_idempotent_witness :
    (BasicLock.init "locks" "jobs-queue" 2 300).releaseState
        ((BasicLock.init "locks" "jobs-queue" 2 300).releaseState [⟨"jobs-queue", 1⟩]) =
      (BasicLock.init "locks" "jobs-queue" 2 300).releaseState [⟨"jobs-queue", 1⟩] ∧
    (⟨"jobs-queue", 2⟩ : Row) ∉
      (BasicLock.init "locks" "jobs-queue" 2 300).releaseState [⟨"jobs-queue", 1⟩] ∧
    ((⟨"jobs-queue", 2⟩ : Row) ∉ ([⟨"jobs-queue", 1⟩] : Storage) →
      (BasicLock.init "locks" "jobs-queue" 2 300).releaseState [⟨"jobs-queue", 1⟩] =
        [⟨"jobs-queue", 1⟩]) :=
  C9_release_idempotent (BasicLock.init "locks" "jobs-queue" 2 300) [⟨"jobs-queue", 1⟩]

/-- C10: the verify step reads `response[0]` unconditionally, so it is
undefined (IndexError, modelled as `none`) on an empty read response, and
defined whenever the read returned at least one row. -/
theorem C10_verify_needs_row (l : BasicLock) (resp : List Row) (s : Storage) :
    l.verify_lock [] s = none ∧
    (resp ≠ [] → (l.verify_lock resp s).isSome = true) := by
  refine ⟨rfl, ?_⟩
  intro hne
  cases resp with
  | nil => exact absurd rfl hne
  | cons r rest =>
    unfold BasicLock.verify_lock
    by_cases h : r.claimId = l.claim_id <;> simp [h]

/-- Witness for C10: a TTL-expired own record leaves the read empty; a
one-row response is handled. -/
theorem C10_verify_needs_row_witness :
    (BasicLock.init "locks" "jobs-queue" 2 300).verify_lock [] [] = none ∧
    (([⟨"jobs-queue", 1⟩] : List Row) ≠ [] →
      ((BasicLock.init "locks" "jobs-queue" 2 300).verify_lock
        [⟨"jobs-queue", 1⟩] []).isSome = true) :=
  C10_verify_needs_row (BasicLock.init "locks" "jobs-queue" 2 300)
    [⟨"jobs-queue", 1⟩] []

/-- C5 counterexample: `ensure_schema` traps by exception class only
(`failure.trap(InvalidRequestException)`), so an invalid-request error whose
condition is a malformed statement — not the schema-exists condition — is
also swallowed (the call returns success), contradicting the claim that it
propagates to the caller. -/
theorem C5_counterexample :
    ensure_schema (Except.error
      (Err.invalidRequest "syntax error in CQL statement")) = Except.ok () :=
  rfl

/-- C5 amended: `ensure_schema` swallows every error of the invalid-request
class, whatever its condition (schema-exists or malformed statement alike),
and propagates every error of any other class unchanged. -/
theorem C5_amended_swallows_class (rows : List Row) (why msg t i : String) :
    ensure_schema (Except.ok rows) = Except.ok () ∧
    ensure_schema (Except.error (Err.invalidRequest why)) = Except.ok () ∧
    ensure_schema (Except.error (Err.storage msg)) =
      Except.error (Err.storage msg) ∧
    ensure_schema (Except.error (Err.busyLock t i)) =
      Except.error (Err.busyLock t i) :=
  ⟨rfl, rfl, rfl, rfl⟩

/-- C6 counterexample: the unit of work succeeds with 42 but the release
fails; `release_lock` attaches the result restoration with addCallback, which
is skipped on the errback path, so the caller receives the release failure,
not the work result. -/
theorem C6_counterexample :
    with_lock_run (Except.ok true) (Except.ok (42 : Nat))
        (Except.error (Err.storage "release failed")) =
      (Except.error (Err.storage "release failed"), 1) ∧
    (Except.error (Err.storage "release failed") : Except Err Nat) ≠
      Except.ok 42 :=
  ⟨rfl, fun h => Except.noConfusion h⟩

/-- C6 amended: after a successful unit of work, `with_lock` delivers the
work result exactly when the release succeeds; a failed release substitutes
its own failure for the successful work result. -/
theorem C6_amended_release_can_mask (α : Type) (v : α) (e : Err) :
    (with_lock_run (Except.ok true) (Except.ok v) (Except.ok ())).1 =
      Except.ok v ∧
    (with_lock_run (Except.ok true) (Except.ok v) (Except.error e)).1 =
      Except.error e :=
  ⟨rfl, rfl⟩

/-- C7 counterexample: the unit of work fails and the release also fails;
the caller receives the release failure instead of the unit of work's
original failure (release was still invoked exactly once). -/
theorem C7_counterexample :
    with_lock_run (Except.ok true)
        (Except.error (Err.storage "work failed") : Except Err Nat)
        (Except.error (Err.storage "release failed")) =
      (Except.error (Err.storage "release failed"), 1) ∧
    Err.storage "release failed" ≠ Err.storage "work failed" :=
  ⟨rfl, by decide⟩

/-- C7 amended: after a successful acquisition, release is invoked exactly
once on every exit path of the unit of work; when the work fails and the
release succeeds the caller receives the work's original failure, and when
the release also fails the caller receives the release failure instead. -/
theorem C7_amended_release_once (α : Type) (work : Except Err α)
    (rel : Except Err Unit) (e e2 : Err) :
    (with_lock_run (Except.ok true) work rel).2 = 1 ∧
    (with_lock_run (Except.ok true) (Except.error e : Except Err α)
        (Except.ok ())).1 = Except.error e ∧
    (with_lock_run (Except.ok true) (Except.error e : Except Err α)
        (Except.error e2)).1 = Except.error e2 :=
  ⟨rfl, rfl, rfl⟩

theorem acquireGo_all_busy (t i : String) (outcomes : Nat → Except Err Bool)
    (hbusy : ∀ n, outcomes n = Except.error (Err.busyLock t i)) :
    ∀ remaining n, acquireGo outcomes n remaining =
      (Except.error (Err.busyLock t i), remaining + 1) := by
  intro remaining
  induction remaining with
  | zero =>
    intro n
    unfold acquireGo
    rw [hbusy n]
  | succ m ih =>
    intro n
    unfold acquireGo
    rw [hbusy n]
    simp only []
    rw [ih (n + 1)]

/-- C3: under persistent contention (every write-read-verify cycle ends in
BusyLockError), `acquire` with max_retry = N performs exactly N + 1 attempts
and finishes with the BusyLock failure. -/
theorem C3_retry_bound (t i : String) (N : Nat)
    (outcomes : Nat → Except Err Bool)
    (hbusy : ∀ n, outcomes n = Except.error (Err.busyLock t i)) :
    acquire outcomes N = (Except.error (Err.busyLock t i), N + 1) :=
  acquireGo_all_busy t i outcomes hbusy N 0

/-- Witness for C3 at the default policy max_retry = 5: six total attempts
before the BusyLock failure surfaces. -/
theorem C3_retry_bound_witness :
    acquire (fun _ => Except.error (Err.busyLock "locks" "jobs-queue")) 5 =
      (Except.error (Err.busyLock "locks" "jobs-queue"), 6) :=
  C3_retry_bound "locks" "jobs-queue" 5
    (fun _ => Except.error (Err.busyLock "locks" "jobs-queue")) (fun _ => rfl)

/-- C4: a failure outcome of an attempt that is not a BusyLock condition is
propagated at once by the retry loop — the failing attempt is the only one
performed from that point, whatever retry budget remains, so no further
attempt is scheduled and the retry count is not consumed. -/
theorem C4_non_busy_propagates (outcomes : Nat → Except Err Bool)
    (n remaining : Nat) (e : Err)
    (he : isBusyLock e = false)
    (h : outcomes n = Except.error e) :
    acquireGo outcomes n remaining = (Except.error e, 1) := by
  cases e with
  | invalidRequest w =>
    unfold acquireGo
    rw [h]
  | busyLock t i => simp [isBusyLock] at he
  | storage m =>
    unfold acquireGo
    rw [h]

/-- Witness for C4: a storage failure on the first attempt with five retries
still allowed ends the loop immediately with that failure. -/
theorem C4_non_busy_propagates_witness :
    acquireGo (fun _ => Except.error (Err.storage "quorum lost")) 0 5 =
      (Except.error (Err.storage "quorum lost"), 1) :=
  C4_non_busy_propagates (fun _ => Except.error (Err.storage "quorum lost"))
    0 5 (Err.storage "quorum lost") rfl rfl

theorem attemptTrace_claim (l : BasicLock) (resp : List Row) :
    ∀ e ∈ (attemptTrace l resp).1, ∀ c, e.claimUsed = some c →
      c = l.claim_id := by
  intro e he c hc
  cases resp with
  | nil =>
    simp only [attemptTrace] at he
    fin_cases he
    · simp [Event.claimUsed] at hc; omega
    · simp [Event.claimUsed] at hc
  | cons r rest =>
    by_cases hr : r.claimId = l.claim_id
    · simp only [attemptTrace, if_pos hr] at he
      fin_cases he <;> simp [Event.claimUsed] at hc <;> omega
    · simp only [attemptTrace, if_neg hr] at he
      fin_cases he <;> simp [Event.claimUsed] at hc <;> omega

theorem acquireTrace_claim (l : BasicLock) (resps : Nat → List Row) :
    ∀ remaining n, ∀ e ∈ (acquireTrace l resps n remaining).1,
      ∀ c, e.claimUsed = some c → c = l.claim_id := by
  intro remaining
  induction remaining with
  | zero =>
    intro n e he c hc
    unfold acquireTrace at he
    rcases hat : attemptTrace l (resps n) with ⟨evs, res⟩
    rw [hat] at he
    have hevs : e ∈ evs := by
      cases res with
      | ok v => exact he
      | error err => cases err <;> exact he
    have := attemptTrace_claim l (resps n) e (by rw [hat]; exact hevs) c hc
    exact this
  | succ m ih =>
    intro n e he c hc
    unfold acquireTrace at he
    rcases hat : attemptTrace l (resps n) with ⟨evs, res⟩
    rw [hat] at he
    have hmem : e ∈ evs ∨ e ∈ (acquireTrace l resps (n + 1) m).1 := by
      cases res with
      | ok v => exact Or.inl he
      | error err =>
        cases err with
        | busyLock t i =>
          simp only [List.mem_append] at he
          exact he
        | invalidRequest w => exact Or.inl he
        | storage msg => exact Or.inl he
    rcases hmem with h | h
    · exact attemptTrace_claim l (resps n) e (by rw [hat]; exact h) c hc
    · exact ih (n + 1) e h c hc

/-- C2: the claim identifier is fixed at construction (`BasicLock.init`
stores the one fresh uuid), and every claim-bearing storage operation —
write, verify comparison and delete — issued across all retries of a single
acquire call binds that same identifier, whatever the reads returned. -/
theorem C2_one_claim_id (t i : String) (fresh ttl : Nat)
    (resps : Nat → List Row) (max_retry : Nat) :
    (BasicLock.init t i fresh ttl).claim_id = fresh ∧
    ∀ e ∈ (acquireTrace (BasicLock.init t i fresh ttl) resps 0 max_retry).1,
      ∀ c, e.claimUsed = some c → c = fresh :=
  ⟨rfl, fun e he c hc =>
    acquireTrace_claim (BasicLock.init t i fresh ttl) resps max_retry 0 e he c hc⟩

/-- Witness for C2: an acquire call of engine claim 7 that stays contended
(every read headed by foreign claim 3) with one retry allowed; the write
event of the second attempt binds claim 7. -/
theorem C2_one_claim_id_witness :
    (BasicLock.init "locks" "jobs-queue" 7 300).claim_id = 7 ∧
    (Event.writeEv "jobs-queue" 7 ∈
      (acquireTrace (BasicLock.init "locks" "jobs-queue" 7 300)
        (fun _ => [⟨"jobs-queue", 3⟩]) 0 1).1 ∧
      (Event.writeEv "jobs-queue" 7).claimUsed = some 7 ∧ (7 : Nat) = 7) :=
  ⟨(C2_one_claim_id "locks" "jobs-queue" 7 300 (fun _ => [⟨"jobs-queue", 3⟩]) 1).1,
    by decide,
    rfl,
    (C2_one_claim_id "locks" "jobs-queue" 7 300 (fun _ => [⟨"jobs-queue", 3⟩]) 1).2
      (Event.writeEv "jobs-queue" 7) (by decide) 7 rfl⟩
